import Mathlib

/-!
# A shallow embedding of the `locator` Go package

This file embeds the service-locator registry of `locator.go` in Lean 4 and
proves properties of its operations: `New`, `RegisterSingleton`,
`RegisterLazySingleton`, `RegisterFactory`, `Get`, the lazy-singleton
materialization `getInstance`, and the key derivation `getTypeKey`.

Modelling decisions, each traced to the source:

* Go static types are modelled by `GoType`: either a concrete (non-interface)
  type or an interface type.  `getTypeKey[T]` in the source evaluates
  `reflect.TypeOf(zero)` on the zero value `var zero T`.  For a concrete type
  this yields the `reflect.Type` of `T`; for an interface type the zero value
  is the nil interface, and `reflect.TypeOf` of a nil interface is `nil`.
  Hence the model's key type is `Option GoType`, with `none` for every
  interface type.

* Runtime values (`any` entries of the maps) are modelled by `GoValue`: the
  name of the value's dynamic (concrete) type plus an allocation identifier
  that models reference identity (`==` on pointers).

* The type assertion `instance.(T)` succeeds when `T` is concrete and the
  dynamic type is exactly `T`, or when `T` is an interface the dynamic type
  implements; otherwise Go panics.  The implements relation is a parameter
  `impl : String → String → Bool` (dynamic type name, interface name).

* The two maps `instances` and `providers` are association lists keyed by the
  type key.  `sync.RWMutex` and `sync.Once` disappear in this sequential
  model; the `sync.Once` state of a `lazySingleton` is represented by whether
  its instance slot is filled (the `once` fires exactly when the slot is
  written, and is never fired while `provider == nil`).

* To reason about "the constructor runs exactly once" and "fresh instance per
  call", the state carries two instrumentation counters: `nextId`, the source
  of fresh allocation identifiers, and `calls`, the number of provider
  invocations (the side-effect counter used by the package's own tests).
  Constructors are modelled by `Constructor`: either `alloc tn` (build a
  fresh value of dynamic type `tn`, as `func() *T { return &T{...} }` does)
  or `const v` (return a fixed already-existing value).
-/

set_option autoImplicit false

namespace Locator

/-- A Go static type: a concrete (non-interface) named type, or an interface
type.  Names stand for the fully qualified Go type name. -/
inductive GoType where
  | concrete (name : String)
  | iface (name : String)
deriving DecidableEq, Repr

/-- A runtime value: the name of its dynamic concrete type, and an allocation
identifier modelling reference identity. -/
structure GoValue where
  dynTypeName : String
  refId : Nat
deriving DecidableEq, Repr

/-- `getTypeKey[T]()` from the source: `var zero T; return reflect.TypeOf(zero)`.
For a concrete `T` the zero value carries type `T`, so the key is `T` itself;
for an interface `T` the zero value is the nil interface and `reflect.TypeOf`
returns `nil`, modelled as `none`. -/
def getTypeKey (T : GoType) : Option GoType :=
  match T with
  | .iface _ => none
  | t => some t

/-- `fmt.Sprintf("%T", zero)` on the zero value of `T`: the Go name of the
type for a concrete `T`, and `<nil>` for an interface `T` (the zero value is
the nil interface, which `%T` renders as `<nil>`). -/
def fmtTypeOfZero (T : GoType) : String :=
  match T with
  | .concrete n => n
  | .iface _ => "<nil>"

/-- The error built at the end of `Get` when neither an instance nor a usable
provider exists: `fmt.Errorf("no provider registered for type %T", zero)`. -/
def noProviderError (T : GoType) : String :=
  "no provider registered for type " ++ fmtTypeOfZero T

/-- The error built in `lazySingleton.getInstance` when `ls.provider == nil`:
`fmt.Errorf("no provider registered for type %T", ls.instance)`.  The `once`
has not fired (it only fires below the nil check), so `ls.instance` is the
zero value of `T`. -/
def nilConstructorError (T : GoType) : String :=
  "no provider registered for type " ++ fmtTypeOfZero T

/-- Does the Go type assertion `v.(T)` succeed?  `impl c i` says whether
concrete type `c` implements interface `i`. -/
def castOk (impl : String → String → Bool) (T : GoType) (v : GoValue) : Bool :=
  match T with
  | .concrete n => v.dynTypeName = n
  | .iface n => impl v.dynTypeName n

/-- A provider function `Provider[T] = func() T`, as registered by user code:
either it allocates a fresh value of dynamic type `tn` on every call, or it
returns a fixed value. -/
inductive Constructor where
  | alloc (tn : String)
  | const (v : GoValue)
deriving DecidableEq, Repr

/-- The dynamic type name of the values a constructor produces. -/
def ctorResultType (c : Constructor) : String :=
  match c with
  | .alloc tn => tn
  | .const v => v.dynTypeName

/-- An entry of the `providers` map.  `forType` records the generic
instantiation `T` of the stored `Provider[T]` or `*lazySingleton[T]`, which
the type switch in `Get` inspects.  For `lazy`, `inst = none` models an
unfired `sync.Once` (instance slot still the zero value); `inst = some v`
models a fired `once` with produced value `v`.  `ctor = none` models a nil
`provider` field. -/
inductive ProviderRecord where
  | factory (forType : GoType) (ctor : Constructor)
  | lazy (forType : GoType) (inst : Option GoValue) (ctor : Option Constructor)
deriving DecidableEq, Repr

/-- Association-list lookup by type key (Go map read). -/
def lookupKey {α : Type} (k : Option GoType) : List (Option GoType × α) → Option α
  | [] => none
  | (k2, v) :: rest => if k2 = k then some v else lookupKey k rest

/-- Association-list insert-or-replace by type key (Go map write). -/
def insertKey {α : Type} (k : Option GoType) (v : α) :
    List (Option GoType × α) → List (Option GoType × α)
  | [] => [(k, v)]
  | (k2, v2) :: rest =>
      if k2 = k then (k, v) :: rest else (k2, v2) :: insertKey k v rest

/-- The `ServiceLocator` state: the two maps of the Go struct, plus the two
instrumentation counters described in the header (`nextId` for allocation
identity, `calls` for provider invocations).  The mutex is erased in this
sequential model. -/
structure ServiceLocator where
  instances : List (Option GoType × GoValue)
  providers : List (Option GoType × ProviderRecord)
  nextId : Nat
  calls : Nat
deriving DecidableEq, Repr

/-- `New()`: both maps empty. -/
def New : ServiceLocator :=
  { instances := [], providers := [], nextId := 0, calls := 0 }

/-- Invoke a provider function: bump the invocation counter, and for an
allocating constructor consume a fresh allocation identifier. -/
def runCtor (c : Constructor) (sl : ServiceLocator) : GoValue × ServiceLocator :=
  match c with
  | .alloc tn =>
      (⟨tn, sl.nextId⟩, { sl with nextId := sl.nextId + 1, calls := sl.calls + 1 })
  | .const v => (v, { sl with calls := sl.calls + 1 })

/-- `RegisterSingleton[T](sl, instance)`:
`sl.instances[getTypeKey[T]()] = instance`. -/
def RegisterSingleton (T : GoType) (v : GoValue) (sl : ServiceLocator) : ServiceLocator :=
  { sl with instances := insertKey (getTypeKey T) v sl.instances }

/-- `RegisterLazySingleton[T](sl, provider)`:
`sl.providers[getTypeKey[T]()] = &lazySingleton[T]{provider: provider}`.
The fresh record has an unfired `once` and the zero instance slot. -/
def RegisterLazySingleton (T : GoType) (ctor : Option Constructor)
    (sl : ServiceLocator) : ServiceLocator :=
  { sl with providers := insertKey (getTypeKey T) (.lazy T none ctor) sl.providers }

/-- `RegisterFactory[T](sl, provider)`:
`sl.providers[getTypeKey[T]()] = provider`. -/
def RegisterFactory (T : GoType) (ctor : Constructor)
    (sl : ServiceLocator) : ServiceLocator :=
  { sl with providers := insertKey (getTypeKey T) (.factory T ctor) sl.providers }

/-- Outcome of `Get`: a value with nil error, a non-nil error carrying a
message, or a runtime panic (a failed type assertion `instance.(T)`). -/
inductive GetResult where
  | ok (v : GoValue)
  | err (msg : String)
  | panic
deriving DecidableEq, Repr

/-- `lazySingleton[T].getInstance(sl)`, reached from `Get` with the record
`lazy T inst ctor` stored under `getTypeKey T` in `sl.providers`:
if `ls.provider == nil`, return the `nilConstructorError` (the `once` never
fires on this path, so the failure repeats on every call); otherwise
`once.Do`: on first passage invoke the provider, store the result in the
record's slot and in `sl.instances[getTypeKey[T]()]`; afterwards return the
stored `ls.instance`. -/
def getInstance (T : GoType) (inst : Option GoValue) (ctor : Option Constructor)
    (sl : ServiceLocator) : GetResult × ServiceLocator :=
  match ctor with
  | none => (.err (nilConstructorError T), sl)
  | some c =>
      match inst with
      | some v => (.ok v, sl)
      | none =>
          let pr := runCtor c sl
          let sl2 := { pr.2 with
            providers := insertKey (getTypeKey T) (.lazy T (some pr.1) (some c)) pr.2.providers,
            instances := insertKey (getTypeKey T) pr.1 pr.2.instances }
          (.ok pr.1, sl2)

/-- `Get[T](sl)`: compute the key; if `instances` holds it, return the stored
value through the assertion `instance.(T)` (panic if the assertion fails); else
if `providers` holds it, the type switch tries `*lazySingleton[T]` then
`Provider[T]` — a record built at a different instantiation matches neither and
control falls through; else (and on fall-through) return `noProviderError`. -/
def Get (impl : String → String → Bool) (T : GoType) (sl : ServiceLocator) :
    GetResult × ServiceLocator :=
  let typeKey := getTypeKey T
  match lookupKey typeKey sl.instances with
  | some v => if castOk impl T v then (.ok v, sl) else (.panic, sl)
  | none =>
      match lookupKey typeKey sl.providers with
      | some (.lazy U inst ctor) =>
          if U = T then getInstance T inst ctor sl else (.err (noProviderError T), sl)
      | some (.factory U ctor) =>
          if U = T then
            let pr := runCtor ctor sl
            (.ok pr.1, pr.2)
          else (.err (noProviderError T), sl)
      | none => (.err (noProviderError T), sl)

/-! ## Basic lemmas about the map embedding -/

theorem lookupKey_insertKey_self {α : Type} (k : Option GoType) (v : α)
    (l : List (Option GoType × α)) : lookupKey k (insertKey k v l) = some v := by
  induction l with
  | nil => simp [insertKey, lookupKey]
  | cons hd tl ih =>
      obtain ⟨k2, v2⟩ := hd
      by_cases hk : k2 = k
      · simp [insertKey, hk, lookupKey]
      · simp [insertKey, hk, lookupKey, ih]

theorem lookupKey_insertKey_ne {α : Type} {k k0 : Option GoType} (v : α)
    (l : List (Option GoType × α)) (hne : k ≠ k0) :
    lookupKey k (insertKey k0 v l) = lookupKey k l := by
  have hne2 : ¬k0 = k := fun h => hne h.symm
  induction l with
  | nil => simp [insertKey, lookupKey, hne2]
  | cons hd tl ih =>
      obtain ⟨k2, v2⟩ := hd
      by_cases hk : k2 = k0
      · subst hk
        simp [insertKey, lookupKey, hne2]
      · simp only [insertKey, if_neg hk, lookupKey]
        by_cases hk2 : k2 = k
        · simp [hk2]
        · simp [hk2, ih]

/-- On every error path of `getInstance` the locator state is unchanged
(the only mutating path is the first-fire success path). -/
theorem getInstance_err_state {T : GoType} {inst : Option GoValue}
    {ctor : Option Constructor} {sl : ServiceLocator} {m : String}
    (h : (getInstance T inst ctor sl).1 = .err m) :
    (getInstance T inst ctor sl).2 = sl := by
  cases ctor with
  | none => rfl
  | some c =>
      cases inst with
      | some v => simp [getInstance] at h
      | none => simp [getInstance] at h

/-- When `instances` holds the key and the cast succeeds, `Get` returns the
stored value unchanged and does not touch the state. -/
theorem Get_instances_hit (impl : String → String → Bool) (T : GoType)
    {sl : ServiceLocator} {v : GoValue}
    (hv : lookupKey (getTypeKey T) sl.instances = some v)
    (hc : castOk impl T v = true) :
    Get impl T sl = (.ok v, sl) := by
  simp [Get, hv, hc]

end Locator

namespace Locator

/-! ## Claim theorems -/

/-- Concrete demo data: a concrete type `ConcreteA` implementing interface
`I1` but not `I2`. -/
def implDemo : String → String → Bool := fun c i => c == "ConcreteA" && i == "I1"

/-- A demo value of dynamic type `ConcreteA`. -/
def vDemo : GoValue := ⟨"ConcreteA", 0⟩

/-- The registry obtained by `RegisterSingleton[I1](sl, vDemo)` on a fresh
locator, with `I1` an interface type: the value is stored under the `nil`
type key. -/
def slDemo : ServiceLocator := RegisterSingleton (.iface "I1") vDemo New

/-- Claim C2: refuted as stated — `getTypeKey` is not injective over static
types.  Two distinct interface types both key to `nil` (`reflect.TypeOf` of a
nil interface), so their keys collide. -/
theorem getTypeKey_interface_collision :
    getTypeKey (.iface "I1") = getTypeKey (.iface "I2") ∧
      (GoType.iface "I1") ≠ (GoType.iface "I2") := by
  decide

/-- Claim C1: refuted as stated — after registering a `ConcreteA` value under
interface type `I1`, a `Get` for the distinct interface type `I2` finds the
(shared, `nil`) type key in `instances`, but the stored value is not of type
`I2`, and the direct type assertion fails (a run-time panic), instead of the
cast being safe. -/
theorem Get_instances_hit_cast_panics :
    lookupKey (getTypeKey (.iface "I2")) slDemo.instances = some vDemo ∧
      Get implDemo (.iface "I2") slDemo = (.panic, slDemo) := by
  decide

/-- Claim C10: whenever `Get` returns an error (either failure mode), the
registry state is unchanged, so a failed retrieval can be repeated with the
same outcome. -/
theorem Get_err_state_unchanged (impl : String → String → Bool) (T : GoType)
    (sl : ServiceLocator) (m : String)
    (h : (Get impl T sl).1 = .err m) : (Get impl T sl).2 = sl := by
  unfold Get at h ⊢
  cases h1 : lookupKey (getTypeKey T) sl.instances with
  | some v =>
      simp only [h1] at h ⊢
      by_cases hc : castOk impl T v = true <;> simp [hc] at h ⊢
  | none =>
      simp only [h1] at h ⊢
      cases h2 : lookupKey (getTypeKey T) sl.providers with
      | some rec =>
          cases rec with
          | lazy U inst ctor =>
              simp only [h2] at h ⊢
              by_cases hU : U = T
              · simp only [hU, if_true] at h ⊢
                exact getInstance_err_state h
              · simp [hU]
          | factory U ctor =>
              simp only [h2] at h ⊢
              by_cases hU : U = T
              · simp [hU] at h
              · simp [hU]
      | none => simp [h2]

/-- Claim C10 witness: a concrete failing `Get` on the empty locator leaves
the state unchanged. -/
theorem Get_err_state_unchanged_witness :
    (Get implDemo (.concrete "X") New).2 = New :=
  Get_err_state_unchanged implDemo (.concrete "X") New
    (noProviderError (.concrete "X")) (by decide)

/-- Claim C8: `RegisterSingleton` for `T` leaves the `providers` map exactly
as it was and changes no `instances` entry other than the one at
`getTypeKey T`; a previously registered lazy singleton or factory record for
`T` therefore remains stored in `providers`. -/
theorem RegisterSingleton_frame (T : GoType) (v : GoValue) (sl : ServiceLocator) :
    (RegisterSingleton T v sl).providers = sl.providers ∧
      (∀ k, k ≠ getTypeKey T →
        lookupKey k (RegisterSingleton T v sl).instances = lookupKey k sl.instances) ∧
      lookupKey (getTypeKey T) (RegisterSingleton T v sl).providers =
        lookupKey (getTypeKey T) sl.providers := by
  refine ⟨rfl, fun k hk => ?_, rfl⟩
  exact lookupKey_insertKey_ne v sl.instances hk

/-- Claim C8 witness: with a lazy-singleton record registered for concrete
type `A`, registering a singleton for `A` preserves the providers map, and an
unrelated key `B` in `instances` is untouched. -/
theorem RegisterSingleton_frame_witness :
    (RegisterSingleton (.concrete "A") vDemo
        (RegisterLazySingleton (.concrete "A") none New)).providers =
      (RegisterLazySingleton (.concrete "A") none New).providers ∧
      lookupKey (some (.concrete "B"))
        (RegisterSingleton (.concrete "A") vDemo
          (RegisterLazySingleton (.concrete "A") none New)).instances =
        lookupKey (some (.concrete "B"))
          (RegisterLazySingleton (.concrete "A") none New).instances := by
  refine ⟨(RegisterSingleton_frame (.concrete "A") vDemo
      (RegisterLazySingleton (.concrete "A") none New)).1, ?_⟩
  exact (RegisterSingleton_frame (.concrete "A") vDemo
      (RegisterLazySingleton (.concrete "A") none New)).2.1
    (some (.concrete "B")) (by decide)

/-- A second implements relation for counterexamples: `ConcreteB` implements
both `I1` and `I2`. -/
def implDemo2 : String → String → Bool :=
  fun c i => c == "ConcreteB" && (i == "I1" || i == "I2")

/-- A demo value of dynamic type `ConcreteB`. -/
def vDemo2 : GoValue := ⟨"ConcreteB", 0⟩

/-- A second, distinct demo value of dynamic type `ConcreteB`. -/
def wDemo2 : GoValue := ⟨"ConcreteB", 1⟩

/-- Claim C3 counterexample: the absent-constructor failure is not distinct
from the missing-registration failure.  Registering a lazy singleton with a
nil constructor for `*TestService` and calling `Get` produces exactly the
same error as calling `Get` on the empty locator (`fmt.Errorf` with the same
format string at both sites; the package's own `TestNilProvider` expects this
shared message). -/
theorem lazyNilError_equals_noProviderError :
    (Get implDemo (.concrete "*TestService")
        (RegisterLazySingleton (.concrete "*TestService") none New)).1 =
      (Get implDemo (.concrete "*TestService") New).1 ∧
      (Get implDemo (.concrete "*TestService") New).1 =
        .err "no provider registered for type *TestService" := by
  decide

/-- Claim C3 (amended): a type with neither instance nor provider fails with
the no-provider error; a lazy-singleton record with an absent constructor
fails on every call, identically — the state is unchanged, so the failure
recurs — but the error is not distinct: it carries the same message as the
missing-registration error. -/
theorem Get_failure_modes (impl : String → String → Bool) (T : GoType)
    (sl : ServiceLocator)
    (hinst : lookupKey (getTypeKey T) sl.instances = none)
    (hprov : lookupKey (getTypeKey T) sl.providers = none) :
    Get impl T sl = (.err (noProviderError T), sl) ∧
      Get impl T (RegisterLazySingleton T none sl) =
        (.err (nilConstructorError T), RegisterLazySingleton T none sl) ∧
      nilConstructorError T = noProviderError T := by
  refine ⟨?_, ?_, rfl⟩
  · simp [Get, hinst, hprov]
  · have h1 : lookupKey (getTypeKey T)
        (RegisterLazySingleton T none sl).instances = none := hinst
    have h2 : lookupKey (getTypeKey T)
        (RegisterLazySingleton T none sl).providers =
          some (.lazy T none none) := lookupKey_insertKey_self _ _ _
    simp [Get, h1, h2, getInstance]

/-- Claim C3 witness: the amended failure-mode theorem at concrete type `X`
on the empty locator. -/
theorem Get_failure_modes_witness :
    Get implDemo (.concrete "X") New =
        (.err (noProviderError (.concrete "X")), New) ∧
      Get implDemo (.concrete "X") (RegisterLazySingleton (.concrete "X") none New) =
        (.err (nilConstructorError (.concrete "X")),
          RegisterLazySingleton (.concrete "X") none New) ∧
      nilConstructorError (.concrete "X") = noProviderError (.concrete "X") :=
  Get_failure_modes implDemo (.concrete "X") New (by decide) (by decide)

/-- Claim C7 counterexample: for an interface type the never-registered error
does not surface the requested type's identity (the message is built from the
nil zero value and reads `<nil>`, identically for distinct interface types),
and registering an unrelated interface type `I2` changes the outcome of a
`Get` for `I1` from an error to success. -/
theorem unregistered_interface_error_and_shadowing :
    (Get implDemo2 (.iface "I1") New).1 =
        .err "no provider registered for type <nil>" ∧
      (Get implDemo2 (.iface "I3") New).1 = (Get implDemo2 (.iface "I1") New).1 ∧
      (GoType.iface "I2") ≠ (GoType.iface "I1") ∧
      (Get implDemo2 (.iface "I1") (RegisterSingleton (.iface "I2") vDemo2 New)).1 =
        .ok vDemo2 := by
  decide

/-- Claim C7 (amended): for a never-registered concrete type `n`, `Get` fails
with the no-provider error whose message names the requested type, and
registering any value or provider for a type `A` with a different type key
leaves that outcome unchanged. -/
theorem Get_unregistered (impl : String → String → Bool) (n : String)
    (A : GoType) (w : GoValue) (c1 : Option Constructor) (c2 : Constructor)
    (sl : ServiceLocator)
    (hinst : lookupKey (getTypeKey (.concrete n)) sl.instances = none)
    (hprov : lookupKey (getTypeKey (.concrete n)) sl.providers = none)
    (hA : getTypeKey A ≠ getTypeKey (.concrete n)) :
    Get impl (.concrete n) sl =
        (.err ("no provider registered for type " ++ n), sl) ∧
      (Get impl (.concrete n) (RegisterSingleton A w sl)).1 =
        .err ("no provider registered for type " ++ n) ∧
      (Get impl (.concrete n) (RegisterLazySingleton A c1 sl)).1 =
        .err ("no provider registered for type " ++ n) ∧
      (Get impl (.concrete n) (RegisterFactory A c2 sl)).1 =
        .err ("no provider registered for type " ++ n) := by
  have hne : some (GoType.concrete n) ≠ getTypeKey A := fun h => hA h.symm
  have hkey : getTypeKey (.concrete n) = some (.concrete n) := rfl
  refine ⟨by simp [Get, hinst, hprov, noProviderError, fmtTypeOfZero], ?_, ?_, ?_⟩
  · have h1 : lookupKey (getTypeKey (.concrete n))
        (RegisterSingleton A w sl).instances = none := by
      rw [hkey] at hinst ⊢
      rw [show (RegisterSingleton A w sl).instances =
        insertKey (getTypeKey A) w sl.instances from rfl]
      rw [lookupKey_insertKey_ne w sl.instances hne]
      exact hinst
    simp [Get, h1, show lookupKey (getTypeKey (.concrete n))
      (RegisterSingleton A w sl).providers = none from hprov,
      noProviderError, fmtTypeOfZero]
  · have h2 : lookupKey (getTypeKey (.concrete n))
        (RegisterLazySingleton A c1 sl).providers = none := by
      rw [hkey] at hprov ⊢
      rw [show (RegisterLazySingleton A c1 sl).providers =
        insertKey (getTypeKey A) (.lazy A none c1) sl.providers from rfl]
      rw [lookupKey_insertKey_ne _ sl.providers hne]
      exact hprov
    simp [Get, show lookupKey (getTypeKey (.concrete n))
      (RegisterLazySingleton A c1 sl).instances = none from hinst, h2,
      noProviderError, fmtTypeOfZero]
  · have h3 : lookupKey (getTypeKey (.concrete n))
        (RegisterFactory A c2 sl).providers = none := by
      rw [hkey] at hprov ⊢
      rw [show (RegisterFactory A c2 sl).providers =
        insertKey (getTypeKey A) (.factory A c2) sl.providers from rfl]
      rw [lookupKey_insertKey_ne _ sl.providers hne]
      exact hprov
    simp [Get, show lookupKey (getTypeKey (.concrete n))
      (RegisterFactory A c2 sl).instances = none from hinst, h3,
      noProviderError, fmtTypeOfZero]

/-- Claim C7 witness: the amended theorem at concrete type `B` with an
unrelated concrete type `A` registered in all three ways. -/
theorem Get_unregistered_witness :
    Get implDemo (.concrete "B") New =
        (.err "no provider registered for type B", New) ∧
      (Get implDemo (.concrete "B") (RegisterSingleton (.concrete "A") vDemo New)).1 =
        .err "no provider registered for type B" ∧
      (Get implDemo (.concrete "B")
          (RegisterLazySingleton (.concrete "A") none New)).1 =
        .err "no provider registered for type B" ∧
      (Get implDemo (.concrete "B")
          (RegisterFactory (.concrete "A") (.alloc "A") New)).1 =
        .err "no provider registered for type B" :=
  Get_unregistered implDemo "B" (.concrete "A") vDemo none (.alloc "A") New
    (by decide) (by decide) (by decide)

/-- Whether the type assertion to `T` succeeds for a value whose dynamic type
is named `n` (the assertion only inspects the dynamic type name). -/
def castOkName (impl : String → String → Bool) (T : GoType) (n : String) : Bool :=
  match T with
  | .concrete m => n = m
  | .iface m => impl n m

theorem castOk_eq_castOkName (impl : String → String → Bool) (T : GoType)
    (v : GoValue) : castOk impl T v = castOkName impl T v.dynTypeName := by
  cases T <;> rfl

theorem runCtor_calls (c : Constructor) (sl : ServiceLocator) :
    (runCtor c sl).2.calls = sl.calls + 1 := by
  cases c <;> rfl

theorem runCtor_dyn (c : Constructor) (sl : ServiceLocator) :
    (runCtor c sl).1.dynTypeName = ctorResultType c := by
  cases c <;> rfl

theorem runCtor_instances (c : Constructor) (sl : ServiceLocator) :
    (runCtor c sl).2.instances = sl.instances := by
  cases c <;> rfl

theorem runCtor_providers (c : Constructor) (sl : ServiceLocator) :
    (runCtor c sl).2.providers = sl.providers := by
  cases c <;> rfl

/-- First passage through the `once` of a lazy singleton: the provider is
invoked and the result is published into the record's slot and into the
shared `instances` map. -/
theorem getInstance_fire (T : GoType) (c : Constructor) (sl : ServiceLocator) :
    getInstance T none (some c) sl =
      (.ok (runCtor c sl).1,
        { (runCtor c sl).2 with
          providers := insertKey (getTypeKey T)
            (.lazy T (some (runCtor c sl).1) (some c)) (runCtor c sl).2.providers,
          instances := insertKey (getTypeKey T) (runCtor c sl).1
            (runCtor c sl).2.instances }) := rfl

/-- Claim C4: with a non-absent constructor, `RegisterLazySingleton` invokes
nothing; the first `Get` invokes the constructor exactly once and stores the
produced value in the `instances` map; every later `Get` returns that
identical value through the direct-instance path without changing the state
(so the constructor is never invoked again, across any number of calls). -/
theorem RegisterLazySingleton_lazy_once (impl : String → String → Bool)
    (T : GoType) (c : Constructor) (sl : ServiceLocator)
    (hinst : lookupKey (getTypeKey T) sl.instances = none)
    (hct : castOkName impl T (ctorResultType c) = true) :
    (RegisterLazySingleton T (some c) sl).calls = sl.calls ∧
      ∃ v sl2,
        Get impl T (RegisterLazySingleton T (some c) sl) = (.ok v, sl2) ∧
          sl2.calls = sl.calls + 1 ∧
          lookupKey (getTypeKey T) sl2.instances = some v ∧
          Get impl T sl2 = (.ok v, sl2) ∧
          ∀ m : Nat, (fun s => (Get impl T s).2)^[m] sl2 = sl2 := by
  have h1 : lookupKey (getTypeKey T)
      (RegisterLazySingleton T (some c) sl).instances = none := hinst
  have h2 : lookupKey (getTypeKey T)
      (RegisterLazySingleton T (some c) sl).providers =
        some (.lazy T none (some c)) := lookupKey_insertKey_self _ _ _
  have hGet : Get impl T (RegisterLazySingleton T (some c) sl) =
      getInstance T none (some c) (RegisterLazySingleton T (some c) sl) := by
    simp [Get, h1, h2]
  refine ⟨rfl, (runCtor c (RegisterLazySingleton T (some c) sl)).1,
    { (runCtor c (RegisterLazySingleton T (some c) sl)).2 with
      providers := insertKey (getTypeKey T)
        (.lazy T (some (runCtor c (RegisterLazySingleton T (some c) sl)).1) (some c))
        (runCtor c (RegisterLazySingleton T (some c) sl)).2.providers,
      instances := insertKey (getTypeKey T)
        (runCtor c (RegisterLazySingleton T (some c) sl)).1
        (runCtor c (RegisterLazySingleton T (some c) sl)).2.instances },
    ?_, ?_, ?_, ?_, ?_⟩
  · rw [hGet, getInstance_fire]
  · exact runCtor_calls c (RegisterLazySingleton T (some c) sl)
  · exact lookupKey_insertKey_self _ _ _
  · refine Get_instances_hit impl T (lookupKey_insertKey_self _ _ _) ?_
    rw [castOk_eq_castOkName, runCtor_dyn]
    exact hct
  · intro m
    refine Function.iterate_fixed ?_ m
    show (Get impl T _).2 = _
    rw [Get_instances_hit impl T (lookupKey_insertKey_self _ _ _) ?_]
    rw [castOk_eq_castOkName, runCtor_dyn]
    exact hct

/-- Claim C4 witness: the lazy-once theorem at concrete type `A` with an
allocating constructor, on the empty locator. -/
theorem RegisterLazySingleton_lazy_once_witness :
    (RegisterLazySingleton (.concrete "A") (some (.alloc "A")) New).calls = New.calls ∧
      ∃ v sl2,
        Get implDemo (.concrete "A")
            (RegisterLazySingleton (.concrete "A") (some (.alloc "A")) New) =
          (.ok v, sl2) ∧
          sl2.calls = New.calls + 1 ∧
          lookupKey (getTypeKey (.concrete "A")) sl2.instances = some v ∧
          Get implDemo (.concrete "A") sl2 = (.ok v, sl2) ∧
          ∀ m : Nat, (fun s => (Get implDemo (.concrete "A") s).2)^[m] sl2 = sl2 :=
  RegisterLazySingleton_lazy_once implDemo (.concrete "A") (.alloc "A") New
    (by decide) (by decide)

/-- Claim C6: after `RegisterFactory` with an allocating constructor (the
shape user factories take: build and return a fresh value), each `Get`
invokes the constructor once and returns a fresh value: two sequential `Get`
calls return values of the same dynamic type but distinct identity, the
invocation counter rises by one per call, the `instances` map is never
populated by the factory path, and the stored factory record is untouched. -/
theorem RegisterFactory_fresh (impl : String → String → Bool) (T : GoType)
    (tn : String) (sl : ServiceLocator)
    (hinst : lookupKey (getTypeKey T) sl.instances = none) :
    ∃ v1 sl2 v2 sl3,
      Get impl T (RegisterFactory T (.alloc tn) sl) = (.ok v1, sl2) ∧
        Get impl T sl2 = (.ok v2, sl3) ∧
        v1 ≠ v2 ∧
        v1.dynTypeName = v2.dynTypeName ∧
        sl2.calls = sl.calls + 1 ∧
        sl3.calls = sl.calls + 2 ∧
        sl2.instances = sl.instances ∧
        sl3.instances = sl.instances ∧
        sl2.providers = (RegisterFactory T (.alloc tn) sl).providers ∧
        sl3.providers = (RegisterFactory T (.alloc tn) sl).providers := by
  have h1 : lookupKey (getTypeKey T)
      (RegisterFactory T (.alloc tn) sl).instances = none := hinst
  have h2 : lookupKey (getTypeKey T)
      (RegisterFactory T (.alloc tn) sl).providers =
        some (.factory T (.alloc tn)) := lookupKey_insertKey_self _ _ _
  refine ⟨⟨tn, sl.nextId⟩,
    { sl with providers := insertKey (getTypeKey T) (.factory T (.alloc tn)) sl.providers,
              nextId := sl.nextId + 1, calls := sl.calls + 1 },
    ⟨tn, sl.nextId + 1⟩,
    { sl with providers := insertKey (getTypeKey T) (.factory T (.alloc tn)) sl.providers,
              nextId := sl.nextId + 2, calls := sl.calls + 2 },
    ?_, ?_, ?_, rfl, rfl, rfl, rfl, rfl, rfl, rfl⟩
  · simp [Get, h1, h2, runCtor]
    exact ⟨rfl, rfl, rfl, rfl, rfl⟩
  · have h3 : lookupKey (getTypeKey T)
        ({ sl with
          providers := insertKey (getTypeKey T) (.factory T (.alloc tn)) sl.providers,
          nextId := sl.nextId + 1, calls := sl.calls + 1 } :
            ServiceLocator).instances = none := hinst
    have h4 : lookupKey (getTypeKey T)
        ({ sl with
          providers := insertKey (getTypeKey T) (.factory T (.alloc tn)) sl.providers,
          nextId := sl.nextId + 1, calls := sl.calls + 1 } :
            ServiceLocator).providers =
          some (.factory T (.alloc tn)) := lookupKey_insertKey_self _ _ _
    simp [Get, h3, h4, runCtor]
  · simp

/-- Claim C6 witness: the factory-freshness theorem at concrete type `A` on
the empty locator. -/
theorem RegisterFactory_fresh_witness :
    ∃ v1 sl2 v2 sl3,
      Get implDemo (.concrete "A")
          (RegisterFactory (.concrete "A") (.alloc "A") New) = (.ok v1, sl2) ∧
        Get implDemo (.concrete "A") sl2 = (.ok v2, sl3) ∧
        v1 ≠ v2 ∧
        v1.dynTypeName = v2.dynTypeName ∧
        sl2.calls = New.calls + 1 ∧
        sl3.calls = New.calls + 2 ∧
        sl2.instances = New.instances ∧
        sl3.instances = New.instances ∧
        sl2.providers = (RegisterFactory (.concrete "A") (.alloc "A") New).providers ∧
        sl3.providers = (RegisterFactory (.concrete "A") (.alloc "A") New).providers :=
  RegisterFactory_fresh implDemo (.concrete "A") "A" New (by decide)

/-- Claim C9: once a value for `T` sits in the `instances` map (a
materialized lazy singleton), re-registering a lazy singleton or factory for
`T` is ineffective for retrieval: `Get` still returns the stored value
through the instance path, the state (including the invocation counter) is
unchanged, so the newly registered constructor is never invoked. -/
theorem materialized_shadows_providers (impl : String → String → Bool)
    (T : GoType) (v : GoValue) (c1 : Option Constructor) (c2 : Constructor)
    (sl : ServiceLocator)
    (hv : lookupKey (getTypeKey T) sl.instances = some v)
    (hcast : castOk impl T v = true) :
    Get impl T (RegisterLazySingleton T c1 sl) =
        (.ok v, RegisterLazySingleton T c1 sl) ∧
      (RegisterLazySingleton T c1 sl).calls = sl.calls ∧
      Get impl T (RegisterFactory T c2 sl) = (.ok v, RegisterFactory T c2 sl) ∧
      (RegisterFactory T c2 sl).calls = sl.calls := by
  refine ⟨?_, rfl, ?_, rfl⟩
  · exact Get_instances_hit impl T
      (show lookupKey (getTypeKey T) (RegisterLazySingleton T c1 sl).instances =
        some v from hv) hcast
  · exact Get_instances_hit impl T
      (show lookupKey (getTypeKey T) (RegisterFactory T c2 sl).instances =
        some v from hv) hcast

/-- Claim C9 witness: a materialized instance for concrete type `A` shadows a
newly registered lazy singleton and factory. -/
theorem materialized_shadows_providers_witness :
    Get implDemo (.concrete "ConcreteA")
        (RegisterLazySingleton (.concrete "ConcreteA") (some (.alloc "ConcreteA"))
          (RegisterSingleton (.concrete "ConcreteA") vDemo New)) =
        (.ok vDemo,
          RegisterLazySingleton (.concrete "ConcreteA") (some (.alloc "ConcreteA"))
            (RegisterSingleton (.concrete "ConcreteA") vDemo New)) ∧
      (RegisterLazySingleton (.concrete "ConcreteA") (some (.alloc "ConcreteA"))
          (RegisterSingleton (.concrete "ConcreteA") vDemo New)).calls =
        (RegisterSingleton (.concrete "ConcreteA") vDemo New).calls ∧
      Get implDemo (.concrete "ConcreteA")
          (RegisterFactory (.concrete "ConcreteA") (.alloc "ConcreteA")
            (RegisterSingleton (.concrete "ConcreteA") vDemo New)) =
        (.ok vDemo,
          RegisterFactory (.concrete "ConcreteA") (.alloc "ConcreteA")
            (RegisterSingleton (.concrete "ConcreteA") vDemo New)) ∧
      (RegisterFactory (.concrete "ConcreteA") (.alloc "ConcreteA")
          (RegisterSingleton (.concrete "ConcreteA") vDemo New)).calls =
        (RegisterSingleton (.concrete "ConcreteA") vDemo New).calls :=
  materialized_shadows_providers implDemo (.concrete "ConcreteA") vDemo
    (some (.alloc "ConcreteA")) (.alloc "ConcreteA")
    (RegisterSingleton (.concrete "ConcreteA") vDemo New) (by decide) (by decide)

/-- An API call against the locator, for reasoning about call sequences. -/
inductive Op where
  | regSingleton (T : GoType) (v : GoValue)
  | regLazy (T : GoType) (ctor : Option Constructor)
  | regFactory (T : GoType) (ctor : Constructor)
  | get (T : GoType)
deriving DecidableEq, Repr

/-- Execute one API call (the result of a `Get` is dropped, its state effect
kept). -/
def execOp (impl : String → String → Bool) (sl : ServiceLocator) (op : Op) :
    ServiceLocator :=
  match op with
  | .regSingleton T v => RegisterSingleton T v sl
  | .regLazy T c => RegisterLazySingleton T c sl
  | .regFactory T c => RegisterFactory T c sl
  | .get T => (Get impl T sl).2

/-- Execute a sequence of API calls. -/
def execOps (impl : String → String → Bool) (ops : List Op)
    (sl : ServiceLocator) : ServiceLocator :=
  ops.foldl (execOp impl) sl

/-- The `instances` map after a `Get` is either untouched or extended at the
requested type's key (the lazy materialization write). -/
theorem Get_instances_shape (impl : String → String → Bool) (U : GoType)
    (sl : ServiceLocator) :
    (Get impl U sl).2.instances = sl.instances ∨
      ∃ w, (Get impl U sl).2.instances =
        insertKey (getTypeKey U) w sl.instances := by
  cases h1 : lookupKey (getTypeKey U) sl.instances with
  | some v =>
      by_cases hc : castOk impl U v = true <;> simp [Get, h1, hc]
  | none =>
      cases h2 : lookupKey (getTypeKey U) sl.providers with
      | none => simp [Get, h1, h2]
      | some r =>
          cases r with
          | factory W ctor =>
              by_cases hW : W = U
              · simp [Get, h1, h2, hW, runCtor_instances]
              · simp [Get, h1, h2, hW]
          | lazy W inst ctor =>
              by_cases hW : W = U
              · subst hW
                cases ctor with
                | none => simp [Get, h1, h2, getInstance]
                | some c =>
                    cases inst with
                    | some v0 => simp [Get, h1, h2, getInstance]
                    | none =>
                        right
                        refine ⟨(runCtor c sl).1, ?_⟩
                        simp [Get, h1, h2, getInstance_fire, runCtor_instances]
              · simp [Get, h1, h2, hW]

/-- An `instances` entry survives any API call that is not a
`RegisterSingleton` under the same type key. -/
theorem execOp_preserves_instances (impl : String → String → Bool)
    (k : Option GoType) (v : GoValue) (op : Op) (sl : ServiceLocator)
    (hv : lookupKey k sl.instances = some v)
    (hop : ∀ U w, op = Op.regSingleton U w → getTypeKey U ≠ k) :
    lookupKey k (execOp impl sl op).instances = some v := by
  cases op with
  | regSingleton U w =>
      have hne : k ≠ getTypeKey U := fun h => hop U w rfl h.symm
      show lookupKey k (insertKey (getTypeKey U) w sl.instances) = some v
      rw [lookupKey_insertKey_ne w sl.instances hne]
      exact hv
  | regLazy U c => exact hv
  | regFactory U c => exact hv
  | get U =>
      by_cases hU : getTypeKey U = k
      · have hhit : lookupKey (getTypeKey U) sl.instances = some v := by
          rw [hU]; exact hv
        have hstate : (Get impl U sl).2 = sl := by
          by_cases hc : castOk impl U v = true <;> simp [Get, hhit, hc]
        show lookupKey k (Get impl U sl).2.instances = some v
        rw [hstate]
        exact hv
      · rcases Get_instances_shape impl U sl with h | ⟨w, h⟩
        · show lookupKey k (Get impl U sl).2.instances = some v
          rw [h]
          exact hv
        · show lookupKey k (Get impl U sl).2.instances = some v
          rw [h, lookupKey_insertKey_ne w sl.instances (fun hh => hU hh.symm)]
          exact hv

/-- An `instances` entry survives any sequence of API calls containing no
`RegisterSingleton` under the same type key. -/
theorem execOps_preserve_instances (impl : String → String → Bool)
    (k : Option GoType) (v : GoValue) (ops : List Op) (sl : ServiceLocator)
    (hv : lookupKey k sl.instances = some v)
    (hops : ∀ op ∈ ops, ∀ U w, op = Op.regSingleton U w → getTypeKey U ≠ k) :
    lookupKey k (execOps impl ops sl).instances = some v := by
  induction ops generalizing sl with
  | nil => exact hv
  | cons op rest ih =>
      exact ih (execOp impl sl op)
        (execOp_preserves_instances impl k v op sl hv
          (hops op (List.mem_cons_self op rest)))
        (fun o ho => hops o (List.mem_cons_of_mem op ho))

/-- Claim C5 counterexample: singleton identity is not preserved under the
claim's own proviso.  After `RegisterSingleton[I1](v)`, an intervening
`RegisterSingleton[I2](w)` for the distinct interface type `I2` — not a
re-registration for `I1` — makes `Get[I1]` return `w`, not `v`, because both
interface types collide on the `nil` type key. -/
theorem singleton_identity_broken_by_interface_collision :
    (GoType.iface "I2") ≠ (GoType.iface "I1") ∧
      Get implDemo2 (.iface "I1")
          (RegisterSingleton (.iface "I2") wDemo2
            (RegisterSingleton (.iface "I1") vDemo2 New)) =
        (.ok wDemo2,
          RegisterSingleton (.iface "I2") wDemo2
            (RegisterSingleton (.iface "I1") vDemo2 New)) ∧
      wDemo2 ≠ vDemo2 := by
  decide

/-- Claim C5 (amended): after `RegisterSingleton(v)` for `T`, with no
intervening `RegisterSingleton` for any type sharing `T`'s type key (for
concrete `T` that is exactly re-registration for `T`; distinct interface
types share the `nil` key), every subsequent `Get` for `T` — after any
number of further API calls — succeeds and returns the identical value `v`,
leaving the state unchanged. -/
theorem RegisterSingleton_persistent (impl : String → String → Bool)
    (T : GoType) (v : GoValue) (sl : ServiceLocator) (ops : List Op)
    (hcast : castOk impl T v = true)
    (hops : ∀ op ∈ ops, ∀ U w, op = Op.regSingleton U w →
      getTypeKey U ≠ getTypeKey T) :
    Get impl T (execOps impl ops (RegisterSingleton T v sl)) =
      (.ok v, execOps impl ops (RegisterSingleton T v sl)) := by
  have h0 : lookupKey (getTypeKey T) (RegisterSingleton T v sl).instances =
      some v := lookupKey_insertKey_self _ _ _
  exact Get_instances_hit impl T
    (execOps_preserve_instances impl (getTypeKey T) v ops
      (RegisterSingleton T v sl) h0 hops) hcast

/-- Claim C5 witness: a singleton of concrete type `ConcreteA` survives an
intervening registration for a different concrete type and a failing `Get`. -/
theorem RegisterSingleton_persistent_witness :
    castOk implDemo (.concrete "ConcreteA") vDemo = true ∧
      Get implDemo (.concrete "ConcreteA")
          (execOps implDemo
            [Op.regSingleton (.concrete "B") wDemo2, Op.get (.concrete "B")]
            (RegisterSingleton (.concrete "ConcreteA") vDemo New)) =
        (.ok vDemo,
          execOps implDemo
            [Op.regSingleton (.concrete "B") wDemo2, Op.get (.concrete "B")]
            (RegisterSingleton (.concrete "ConcreteA") vDemo New)) := by
  refine ⟨by decide, ?_⟩
  refine RegisterSingleton_persistent implDemo (.concrete "ConcreteA") vDemo New
    [Op.regSingleton (.concrete "B") wDemo2, Op.get (.concrete "B")]
    (by decide) ?_
  intro op hop U w heq
  rcases List.mem_cons.mp hop with h | h
  · subst h
    injection heq with hU hw
    subst hU
    decide
  · rcases List.mem_cons.mp h with h2 | h2
    · subst h2
      exact Op.noConfusion heq
    · exact absurd h2 (List.not_mem_nil op)

end Locator
